import Mathlib

/-!
# Verification of the optqo-platform orchestration core

Shallow embedding of the orchestration subsystem of the repository:

* `execute_single_agent` embeds `EnhancedCrewOrchestrator._execute_single_agent`
  (src/orchrstration_system.py, lines 211-246): per-task retry loop with
  exponential backoff.
* `execute_specialist_agents_parallel` embeds
  `EnhancedCrewOrchestrator._execute_specialist_agents_parallel`
  (src/orchrstration_system.py, lines 161-209): result collection over
  `as_completed(..., timeout=300)`.
* `create_multiple_chunks` embeds `ChunkingService._create_multiple_chunks`
  (src/chunking_service.py, lines 135-203).
* `synthesize_analysis` embeds `AggregationAgent.synthesize_analysis`
  (src/aggregation_agent.py) together with
  `BaseSpecialistAgent._execute_llm_analysis` (src/specialist_agents.py).
* recommendation sorting and strength/concern extraction embed
  `EnhancedAnalysisAgent._synthesize_multi_chunk_analysis`,
  `_extract_strengths` and `_extract_concerns` (src/agent2_analysis.py).

Python values returned by an agent are modelled by `PyVal`: the orchestrator
only inspects whether a value is a `dict` and whether it has a top-level
"error" key, so a dict is modelled by that flag plus an opaque tag, and any
non-dict value by an opaque tag.  The external analyzer (an LLM call) is
modelled by a function from the attempt index to the outcome of that attempt.
Wall-clock completion times of concurrent units are inputs of the model, since
they are determined by the external analyzer's latency.
-/

namespace Optqo

/-- Model of a Python value as seen by the orchestrator's validation code:
`dict hasError tag` is a dict whose "error"-key membership is `hasError`;
`other tag` is any non-dict value. The `tag` distinguishes payloads. -/
inductive PyVal where
  | dict (hasError : Bool) (tag : Nat)
  | other (tag : Nat)
deriving DecidableEq, Repr

/-- `isinstance(result, dict)` on a `PyVal`. -/
def PyVal.isDict : PyVal → Bool
  | .dict _ _ => true
  | .other _ => false

/-- `'error' in result` on a `PyVal` (only meaningful for dicts; a non-dict
never reaches this test in the source). -/
def PyVal.hasErrorKey : PyVal → Bool
  | .dict b _ => b
  | .other _ => false

/-- The validation test of `_execute_single_agent` line 229:
`isinstance(result, dict) and 'error' not in result`. -/
def validResult (v : PyVal) : Bool :=
  v.isDict && !v.hasErrorKey

/-- Outcome of one call `agent.analyze(specialist_input)`: either a returned
value or a raised exception with a message. -/
inductive Attempt where
  | ret (v : PyVal)
  | exn (msg : String)
deriving DecidableEq, Repr

/-- Whether one attempt passes the validation of line 229 (returns a dict
without an "error" key); an exception never does. -/
def attemptSucceeds : Attempt → Bool
  | .ret v => validResult v
  | .exn _ => false

/-- The value returned by an attempt (dummy for an exception). -/
def attemptValue : Attempt → PyVal
  | .ret v => v
  | .exn _ => PyVal.other 0

/-- Message of the exception raised for a failed attempt: line 232 raises
"Agent returned invalid result: ..." for an invalid return value, and a
thrown exception keeps its own message. -/
def attemptFailMsg : Attempt → String
  | .ret _ => "Agent returned invalid result"
  | .exn m => m

/-- `max_retries = 3` (src/orchrstration_system.py line 214). -/
def max_retries : Nat := 3

/-- `retry_delay = 2` (line 215), the base backoff delay in time units. -/
def retry_delay : ℚ := 2

/-- `retry_delay *= 1.5` (line 240), the backoff multiplier. -/
def retry_multiplier : ℚ := 3 / 2

/-- Result of one `_execute_single_agent` run: the returned value or the
propagated exception, the list of backoff sleeps performed (in order), and
the number of times `agent.analyze` was invoked. -/
structure SingleRun where
  result : Except String PyVal
  sleeps : List ℚ
  calls : Nat
deriving Repr

/-- The retry loop of `_execute_single_agent` (lines 217-246).  `attempt` is
the Python loop index, `remaining` the number of loop iterations left
(`max_retries - attempt`), `delay` the current `retry_delay`.  On a valid
result the value is returned at once; on a failed attempt the loop sleeps
`delay` and retries with `delay * retry_multiplier` while iterations remain,
and finally raises "Agent ... failed after ... attempts" (line 243).  The
fall-through raise of line 246 is the `remaining = 0` case. -/
def single_agent_go (analyze : Nat → Attempt) : Nat → Nat → ℚ → SingleRun
  | _, 0, _ => ⟨Except.error "Agent failed unexpectedly", [], 0⟩
  | attempt, r + 1, delay =>
    match analyze attempt with
    | Attempt.ret v =>
      if validResult v then ⟨Except.ok v, [], 1⟩
      else if r = 0 then
        ⟨Except.error ("Agent failed after max attempts: " ++
          attemptFailMsg (Attempt.ret v)), [], 1⟩
      else
        let rest := single_agent_go analyze (attempt + 1) r (delay * retry_multiplier)
        ⟨rest.result, delay :: rest.sleeps, rest.calls + 1⟩
    | Attempt.exn m =>
      if r = 0 then
        ⟨Except.error ("Agent failed after max attempts: " ++ m), [], 1⟩
      else
        let rest := single_agent_go analyze (attempt + 1) r (delay * retry_multiplier)
        ⟨rest.result, delay :: rest.sleeps, rest.calls + 1⟩

/-- `_execute_single_agent` (lines 211-246): run the retry loop from attempt
0 with `max_retries` iterations and base delay `retry_delay`. -/
def execute_single_agent (analyze : Nat → Attempt) : SingleRun :=
  single_agent_go analyze 0 max_retries retry_delay

/-! ## Parallel collection (`_execute_specialist_agents_parallel`) -/

/-- One submitted execution unit: the agent's name (a key of the
`specialist_agents` dict), its per-attempt analyzer behaviour, and the
wall-clock time at which the unit's future settles (the analyzer's latency
is external, so this time is an input of the model). -/
structure AgentRun where
  name : String
  analyze : Nat → Attempt
  time : Nat

/-- `as_completed(..., timeout=300)`: the 5-minute overall timeout of
src/orchrstration_system.py line 177, in seconds. -/
def timeout_seconds : Nat := 300

/-- The dict entry stored for one settled unit (lines 180-195): when
`future.result()` returns, the validated result itself is stored; when it
raises (the agent exhausted its retries), the except-branch stores the dict
`{"error": ..., "error_message": ..., "agent_name": ...}` — a dict whose
"error" key is present. -/
def agent_failure_entry : PyVal := PyVal.dict true 0

/-- Entry recorded in `specialist_outputs` for one agent. -/
def agent_entry (analyze : Nat → Attempt) : PyVal :=
  match (execute_single_agent analyze).result with
  | Except.ok v => v
  | Except.error _ => agent_failure_entry

/-- `as_completed` yields futures in settlement order: sort the submitted
units by completion time (ties in an unspecified but fixed order, modelled
stably). -/
def sort_by_completion (agents : List AgentRun) : List AgentRun :=
  List.insertionSort (fun a b => a.time ≤ b.time) agents

/-- The collection loop of lines 177-195 over the settlement-ordered units.
A unit settling after the timeout makes `as_completed` raise `TimeoutError`
from the `for` statement itself, outside the `try` of line 180, so the
exception propagates and no map is returned (`Except.error`).  Otherwise the
unit's entry is recorded under its name. -/
def collect_results : List AgentRun → Nat → Except String (List (String × PyVal))
  | [], _ => Except.ok []
  | a :: rest, timeout =>
    if timeout < a.time then Except.error "TimeoutError"
    else
      match collect_results rest timeout with
      | Except.ok m => Except.ok ((a.name, agent_entry a.analyze) :: m)
      | Except.error e => Except.error e

/-- `_execute_specialist_agents_parallel` (lines 161-209): submit all units,
collect entries as they complete, with the overall `timeout_seconds` bound. -/
def execute_specialist_agents_parallel (agents : List AgentRun) (timeout : Nat) :
    Except String (List (String × PyVal)) :=
  collect_results (sort_by_completion agents) timeout

/-- `len([o for o in specialist_outputs.values() if 'error' not in o])`
(src/orchrstration_system.py lines 140 and 198). -/
def successful_agents (m : List (String × PyVal)) : Nat :=
  (m.filter (fun p => !p.2.hasErrorKey)).length

/-- `len([o for o in specialist_outputs.values() if 'error' in o])`
(src/orchrstration_system.py lines 141 and 199). -/
def failed_agents (m : List (String × PyVal)) : Nat :=
  (m.filter (fun p => p.2.hasErrorKey)).length

/-! ## Content chunking (`ChunkingService._create_multiple_chunks`) -/

/-- One file of the catalog handed to the chunker.  `size_chars` is the
metadata size used for sorting and for the chunk-size target; `content` is
the text actually read from disk (reading is modelled as always succeeding);
`is_text` is the catalog's text-file flag.  Presentation-only fields (path,
extension) are omitted. -/
structure FileInfo where
  name : String
  size_chars : Nat
  content : String
  is_text : Bool
deriving DecidableEq, Repr

/-- One produced chunk: its 1-based id, its files in insertion order, and
the accumulated character count (`content_chars`). -/
structure Chunk where
  id : Nat
  files : List FileInfo
  content_chars : Nat
deriving DecidableEq, Repr

/-- Accumulator of the chunking loop: finalized chunks, the files of the
chunk under construction, and its accumulated character count. -/
structure ChunkBuildState where
  chunks : List Chunk
  curFiles : List FileInfo
  curChars : Nat

/-- One iteration of the loop at src/chunking_service.py lines 151-191:
if adding the file would push the current chunk past the target, the current
chunk is nonempty, and fewer than `recommended_chunks - 1` chunks are
finalized, finalize the current chunk and start a new one; then append the
file to the current chunk. -/
def chunk_step (k target : Nat) (s : ChunkBuildState) (f : FileInfo) : ChunkBuildState :=
  let fileChars := f.content.length
  let s1 :=
    if target < s.curChars + fileChars ∧ s.curFiles ≠ [] ∧ s.chunks.length < k - 1 then
      { chunks := s.chunks ++ [⟨s.chunks.length + 1, s.curFiles, s.curChars⟩],
        curFiles := [], curChars := 0 }
    else s
  { chunks := s1.chunks, curFiles := s1.curFiles ++ [f],
    curChars := s1.curChars + fileChars }

/-- `sorted(text_files, key=lambda x: x.get('size_chars', 0), reverse=True)`
(line 149): Python's sort is stable, and `reverse=True` keeps equal keys in
original order, which is exactly stable insertion sort by descending size. -/
def sort_files_desc (files : List FileInfo) : List FileInfo :=
  List.insertionSort (fun a b => b.size_chars ≤ a.size_chars) files

/-- The trailing step of `_create_multiple_chunks` (lines 193-201): if any
files remain in the current chunk, append them as the final catch-all
chunk. -/
def finalize_chunks (s : ChunkBuildState) : List Chunk :=
  if s.curFiles.isEmpty then s.chunks
  else s.chunks ++ [⟨s.chunks.length + 1, s.curFiles, s.curChars⟩]

/-- `ChunkingService._create_multiple_chunks` (lines 135-203): filter to
text files, compute `chunk_size_target = total_chars // recommended_chunks`,
accumulate the size-sorted files, and append the remaining files as the
final catch-all chunk. -/
def create_multiple_chunks (files : List FileInfo) (k : Nat) : List Chunk :=
  let text_files := files.filter (fun f => f.is_text)
  let total_chars := ((text_files.map (fun f => f.size_chars)).sum)
  let target := total_chars / k
  let sortedFiles := sort_files_desc text_files
  finalize_chunks (sortedFiles.foldl (chunk_step k target) ⟨[], [], 0⟩)

/-! ## Aggregation (`AggregationAgent.synthesize_analysis`) -/

/-- JSON value model for the aggregation path, where the code reads
individual fields of the parsed LLM response. -/
inductive JSON where
  | obj (fields : List (String × JSON))
  | str (s : String)
  | num (n : Nat)
  | arr (xs : List JSON)

/-- `isinstance(output, dict)` on a `JSON` value. -/
def JSON.isDict : JSON → Bool
  | .obj _ => true
  | _ => false

/-- `'error' in output` on a `JSON` value. -/
def JSON.hasErrorKey : JSON → Bool
  | .obj fs => (fs.lookup "error").isSome
  | _ => false

/-- `d.get(key, default)` on a field list. -/
def jsonGetD (fs : List (String × JSON)) (key : String) (dflt : JSON) : JSON :=
  (fs.lookup key).getD dflt

/-- Outcome of one attempt inside `_execute_llm_analysis`
(src/specialist_agents.py lines 52-108): the Bedrock call and the JSON parse
both succeed (`parsed`), the parse fails (`parseErr`), or the call itself
throws (`callErr`). -/
inductive LlmAttempt where
  | parsed (v : JSON)
  | parseErr
  | callErr

/-- Whether an LLM attempt fails (parse error or thrown call). -/
def llmAttemptFails : LlmAttempt → Bool
  | .parsed _ => false
  | _ => true

/-- `BaseSpecialistAgent._execute_llm_analysis` (lines 49-115): on a parsed
response the parsed JSON is returned as-is (no validation); on the final
parse failure the dict of lines 89-94 is returned; on the final call failure
the dict of lines 103-108; the fall-through of lines 111-115 is the
`remaining = 0` case.  Every path RETURNS a dict — the function never
raises on exhaustion. -/
def execute_llm_analysis (attempts : Nat → LlmAttempt) : Nat → Nat → JSON
  | _, 0 =>
    JSON.obj [("error", JSON.str "Analysis failed after all retries"),
      ("agent", JSON.str "aggregation_agent"), ("max_retries", JSON.num 3)]
  | attempt, r + 1 =>
    match attempts attempt with
    | LlmAttempt.parsed v => v
    | LlmAttempt.parseErr =>
      if r = 0 then
        JSON.obj [("error", JSON.str "Failed to parse LLM response"),
          ("raw_response", JSON.str "raw"),
          ("agent", JSON.str "aggregation_agent"),
          ("attempt", JSON.num (attempt + 1))]
      else execute_llm_analysis attempts (attempt + 1) r
    | LlmAttempt.callErr =>
      if r = 0 then
        JSON.obj [("error", JSON.str "LLM analysis failed"),
          ("error_message", JSON.str "llm error"),
          ("agent", JSON.str "aggregation_agent"),
          ("attempt", JSON.num (attempt + 1))]
      else execute_llm_analysis attempts (attempt + 1) r

/-- `AggregationAgent._validate_specialist_outputs` (lines 39-53): a dict
without an "error" key is kept; anything else is replaced by
`{"error": "Agent analysis failed", "partial_data": output}`. -/
def validate_specialist_outputs (outputs : List (String × JSON)) :
    List (String × JSON) :=
  outputs.map (fun p =>
    if p.2.isDict && !p.2.hasErrorKey then p
    else (p.1, JSON.obj [("error", JSON.str "Agent analysis failed"),
      ("partial_data", p.2)]))

/-- `AggregationAgent._format_for_agent3` (lines 206-222): pull the six
expected fields from the synthesis result with `.get` and empty defaults and
attach the validated specialist outputs.  `.get` on a non-dict parse result
raises `AttributeError`, which the `except` of `synthesize_analysis`
re-raises (`Except.error`). -/
def format_for_agent3 (synthesis_result : JSON) (validated : List (String × JSON)) :
    Except String (List (String × JSON)) :=
  match synthesis_result with
  | JSON.obj fs =>
    Except.ok
      [("quality_assessment", jsonGetD fs "quality_assessment" (JSON.obj [])),
       ("architecture_analysis", jsonGetD fs "architecture_analysis" (JSON.obj [])),
       ("business_assessment", jsonGetD fs "business_assessment" (JSON.obj [])),
       ("strategic_recommendations", jsonGetD fs "strategic_recommendations" (JSON.arr [])),
       ("analysis_metadata", jsonGetD fs "analysis_metadata" (JSON.obj [])),
       ("executive_summary", jsonGetD fs "executive_summary" (JSON.obj [])),
       ("_specialist_outputs", JSON.obj validated)]
  | _ => Except.error "AttributeError"

/-- `AggregationAgent.synthesize_analysis` (src/aggregation_agent.py lines
8-37): validate the specialist outputs, run the single synthesis LLM call
through the shared retry wrapper, and format the result for Agent 3.  The
prompt construction (pure string building fed to the external LLM) is
subsumed by the `attempts` parameter. -/
def synthesize_analysis (outputs : List (String × JSON))
    (attempts : Nat → LlmAttempt) : Except String (List (String × JSON)) :=
  let validated := validate_specialist_outputs outputs
  let result := execute_llm_analysis attempts 0 max_retries
  format_for_agent3 result validated

/-- The report `synthesize_analysis` produces when the synthesis call
exhausts its retries: every section is the empty default, and the validated
specialist outputs are attached. -/
def fallback_report (outputs : List (String × JSON)) : List (String × JSON) :=
  [("quality_assessment", JSON.obj []),
   ("architecture_analysis", JSON.obj []),
   ("business_assessment", JSON.obj []),
   ("strategic_recommendations", JSON.arr []),
   ("analysis_metadata", JSON.obj []),
   ("executive_summary", JSON.obj []),
   ("_specialist_outputs", JSON.obj (validate_specialist_outputs outputs))]

/-! ## Recommendation sorting (`_synthesize_multi_chunk_analysis`) -/

/-- One recommendation as consumed by the sorting code of
src/agent2_analysis.py lines 576-578: only `x.get('priority', 'LOW')` is
inspected; `tag` stands for the rest of the record and distinguishes
recommendations. -/
structure Recommendation where
  priority : Option String
  tag : Nat
deriving DecidableEq, Repr

/-- `priority_order = {'HIGH': 3, 'MEDIUM': 2, 'LOW': 1}` with
`.get(key, 1)` for unknown priorities (line 577-578). -/
def priority_order (p : String) : Nat :=
  if p = "HIGH" then 3 else if p = "MEDIUM" then 2 else if p = "LOW" then 1 else 1

/-- The sort key of one recommendation:
`priority_order.get(x.get('priority', 'LOW'), 1)`. -/
def recKey (x : Recommendation) : Nat :=
  priority_order (x.priority.getD "LOW")

/-- Descending-key order used by `sort(key=..., reverse=True)`. -/
def recGE (a b : Recommendation) : Prop := recKey b ≤ recKey a

instance : DecidableRel recGE := fun a b => Nat.decLe (recKey b) (recKey a)

instance : IsTotal Recommendation recGE :=
  ⟨fun a b => (Nat.le_total (recKey b) (recKey a)).imp id id⟩

instance : IsTrans Recommendation recGE :=
  ⟨fun _ _ _ hab hbc => Nat.le_trans hbc hab⟩

/-- `all_recommendations.sort(key=..., reverse=True)` (line 578): CPython's
sort is stable and `reverse=True` keeps equal keys in original order, which
is stable insertion sort by descending key. -/
def sort_recommendations (l : List Recommendation) : List Recommendation :=
  List.insertionSort recGE l

/-- `all_recommendations[:10]` (line 587): the aggregated output list. -/
def strategic_recommendations (l : List Recommendation) : List Recommendation :=
  (sort_recommendations l).take 10

/-! ## Strength/concern extraction (`_extract_strengths`, `_extract_concerns`) -/

/-- Input of `_extract_strengths`: one chunk result; `hasAnalysis` is the
`'chunk_analysis' in chunk_result` test, `quality_scores` the
(dimension, (score, reasoning)) items. -/
structure ChunkResult where
  hasAnalysis : Bool
  quality_scores : List (String × Nat × String)
deriving Repr

/-- One critical finding consumed by `_extract_concerns`. -/
structure Finding where
  severity : String
  issue : String
deriving Repr

/-- The `strengths` list built by `_extract_strengths`
(src/agent2_analysis.py lines 624-637) before deduplication: for each chunk
with an analysis, every dimension scoring above 75 contributes
"Strong <dimension>: <reasoning>". -/
def strengths_list (chunk_results : List ChunkResult) : List String :=
  chunk_results.foldl (fun acc c =>
    if c.hasAnalysis then
      acc ++ ((c.quality_scores.filter (fun q => 75 < q.2.1)).map
        (fun q => "Strong " ++ q.1 ++ ": " ++ q.2.2))
    else acc) []

/-- The `concerns` list built by `_extract_concerns` (lines 639-647) before
deduplication: issues of findings with severity HIGH or MEDIUM. -/
def concerns_list (findings : List Finding) : List String :=
  (findings.filter (fun f => f.severity = "HIGH" || f.severity = "MEDIUM")).map
    (fun f => f.issue)

/-- A possible iteration order of a CPython `set` built from a list:
`list(set(l))` enumerates each distinct element of `l` exactly once, in a
hash-dependent order the language does not specify (and which varies between
processes under hash randomization).  The model therefore quantifies over
every enumeration satisfying exactly these two guarantees. -/
def IsPySetOrder (f : List String → List String) : Prop :=
  ∀ l : List String, (f l).Nodup ∧ ∀ s : String, s ∈ f l ↔ s ∈ l

/-- `list(set(strengths))[:5]` (line 637), with the set's iteration order
supplied as a parameter. -/
def extract_strengths (set_order : List String → List String)
    (chunk_results : List ChunkResult) : List String :=
  (set_order (strengths_list chunk_results)).take 5

/-- `list(set(concerns))[:5]` (line 647), with the set's iteration order
supplied as a parameter. -/
def extract_concerns (set_order : List String → List String)
    (findings : List Finding) : List String :=
  (set_order (concerns_list findings)).take 5

/-- Modelled from the spec: "Deduplicate qualitative lists ... preserving
first-seen order".  Keeps the first occurrence of each distinct item in
input order.  This definition follows the spec's words and is compared with
the source-derived `extract_strengths`; it corresponds to no function of the
source. -/
def specDedupFirstSeen : List String → List String
  | [] => []
  | a :: l => a :: (specDedupFirstSeen l).filter (fun b => !(b == a))

/-! ## Auxiliary state view and concrete scenario inputs -/

/-- All files held by a chunking state: the finalized chunks' files in
order, then the files of the chunk under construction. -/
def state_files (s : ChunkBuildState) : List FileInfo :=
  ((s.chunks.map Chunk.files).flatten) ++ s.curFiles

/-- An analyzer that on every attempt returns a valid payload: the dict
`PyVal.dict false t` (no "error" key). -/
def ret_ok (t : Nat) : Nat → Attempt := fun _ => Attempt.ret (PyVal.dict false t)

/-- An analyzer whose every call raises. -/
def always_exn : Nat → Attempt := fun _ => Attempt.exn "analyzer failure"

/-- An analyzer that always returns a dict carrying a legitimate top-level
"error" field. -/
def ret_error_field : Nat → Attempt := fun _ => Attempt.ret (PyVal.dict true 9)

/-- Six specialist units (the keys of `specialist_agents`), where
`performance_analysis` is still running when the 300-second overall timeout
elapses (it settles at 400). -/
def timeout_scenario : List AgentRun :=
  [⟨"technology_detection", ret_ok 1, 10⟩,
   ⟨"code_quality", ret_ok 2, 20⟩,
   ⟨"architecture_dataflow", ret_ok 3, 30⟩,
   ⟨"file_structure", ret_ok 4, 40⟩,
   ⟨"business_context", ret_ok 5, 50⟩,
   ⟨"performance_analysis", ret_ok 6, 400⟩]

/-- Six specialist units all settling within the overall timeout. -/
def ontime_scenario : List AgentRun :=
  [⟨"technology_detection", ret_ok 1, 10⟩,
   ⟨"code_quality", ret_ok 2, 20⟩,
   ⟨"architecture_dataflow", ret_ok 3, 30⟩,
   ⟨"file_structure", ret_ok 4, 40⟩,
   ⟨"business_context", ret_ok 5, 50⟩,
   ⟨"performance_analysis", ret_ok 6, 60⟩]

/-- A single unit whose agent succeeds immediately. -/
def single_good_agent : AgentRun := ⟨"technology_detection", ret_ok 7, 10⟩

/-- Five always-succeeding units surrounding one always-failing unit
(`architecture_dataflow`, i.e. task number 3 of 6). -/
def isolation_pre : List AgentRun :=
  [⟨"technology_detection", ret_ok 1, 10⟩, ⟨"code_quality", ret_ok 2, 20⟩]

/-- The always-failing third unit of the isolation scenario. -/
def isolation_bad : AgentRun := ⟨"architecture_dataflow", always_exn, 30⟩

/-- The remaining three always-succeeding units of the isolation scenario. -/
def isolation_post : List AgentRun :=
  [⟨"file_structure", ret_ok 4, 40⟩,
   ⟨"business_context", ret_ok 5, 50⟩,
   ⟨"performance_analysis", ret_ok 6, 60⟩]

/-- Concrete file set for the chunker: four text files. -/
def demo_files : List FileInfo :=
  [⟨"a.py", 6, "aaaaaa", true⟩,
   ⟨"b.py", 4, "bbbb", true⟩,
   ⟨"c.py", 3, "ccc", true⟩,
   ⟨"d.py", 2, "dd", true⟩]

/-- A synthesis LLM whose every call raises. -/
def all_call_err : Nat → LlmAttempt := fun _ => LlmAttempt.callErr

/-- Concrete specialist outputs handed to the aggregation step. -/
def sample_specialist_outputs : List (String × JSON) :=
  [("technology_detection", JSON.obj [("stack", JSON.str "python")])]

/-- Recommendation with priority LOW, arriving first. -/
def recL0 : Recommendation := ⟨some "LOW", 0⟩

/-- Recommendation with priority HIGH, arriving second. -/
def recH1 : Recommendation := ⟨some "HIGH", 1⟩

/-- Recommendation with priority MEDIUM, arriving third. -/
def recM2 : Recommendation := ⟨some "MEDIUM", 2⟩

/-- Recommendation with priority HIGH, arriving fourth. -/
def recH3 : Recommendation := ⟨some "HIGH", 3⟩

/-- The spec's ordering example: input priorities [LOW, HIGH, MEDIUM, HIGH]. -/
def recExample : List Recommendation := [recL0, recH1, recM2, recH3]

/-- Concrete chunk results producing two distinct strength strings. -/
def demo_chunk_results : List ChunkResult :=
  [⟨true, [("functionality", 85, "works well"), ("documentation", 80, "thorough")]⟩]

/-- Concrete critical findings for the concern extraction. -/
def demo_findings : List Finding :=
  [⟨"HIGH", "No tests"⟩, ⟨"LOW", "Style"⟩, ⟨"MEDIUM", "No docs"⟩]

/-! ## Helper lemmas: the retry loop -/

/-- A valid result is a dict without the "error" key. -/
lemma validResult_spec {v : PyVal} (h : validResult v = true) :
    v.isDict = true ∧ v.hasErrorKey = false := by
  cases v with
  | dict b t => cases b <;> simp_all [validResult, PyVal.isDict, PyVal.hasErrorKey]
  | other t => simp_all [validResult, PyVal.isDict]

/-- A successful first attempt returns its payload at once: one analyzer
call, no sleeps. -/
lemma single_agent_go_first_ok (analyze : Nat → Attempt) (attempt r : Nat) (delay : ℚ)
    (h : attemptSucceeds (analyze attempt) = true) :
    single_agent_go analyze attempt (r + 1) delay =
      ⟨Except.ok (attemptValue (analyze attempt)), [], 1⟩ := by
  cases hc : analyze attempt with
  | ret v =>
    rw [hc] at h
    simp [attemptSucceeds] at h
    simp [single_agent_go, hc, h, attemptValue]
  | exn m => rw [hc] at h; simp [attemptSucceeds] at h

/-- A failing attempt with iterations left: sleep the current delay, retry
with the multiplied delay, one more analyzer call. -/
lemma single_agent_go_fail_step (analyze : Nat → Attempt) (attempt r : Nat) (delay : ℚ)
    (h : attemptSucceeds (analyze attempt) = false) :
    single_agent_go analyze attempt (r + 2) delay =
      ⟨(single_agent_go analyze (attempt + 1) (r + 1) (delay * retry_multiplier)).result,
       delay :: (single_agent_go analyze (attempt + 1) (r + 1) (delay * retry_multiplier)).sleeps,
       (single_agent_go analyze (attempt + 1) (r + 1) (delay * retry_multiplier)).calls + 1⟩ := by
  cases hc : analyze attempt with
  | ret v =>
    rw [hc] at h
    simp [attemptSucceeds] at h
    simp [single_agent_go, hc, h]
  | exn m => simp [single_agent_go, hc]

/-- A failing last attempt raises "Agent ... failed after ... attempts". -/
lemma single_agent_go_fail_last (analyze : Nat → Attempt) (attempt : Nat) (delay : ℚ)
    (h : attemptSucceeds (analyze attempt) = false) :
    single_agent_go analyze attempt 1 delay =
      ⟨Except.error ("Agent failed after max attempts: " ++ attemptFailMsg (analyze attempt)),
       [], 1⟩ := by
  cases hc : analyze attempt with
  | ret v =>
    rw [hc] at h
    simp [attemptSucceeds] at h
    simp [single_agent_go, hc, h, attemptFailMsg]
  | exn m => simp [single_agent_go, hc, attemptFailMsg]

/-- When every one of the three attempts fails, the loop makes exactly 3
analyzer calls, sleeps 2 then 2·1.5 time units, and raises. -/
lemma execute_single_agent_all_fail (analyze : Nat → Attempt)
    (h : ∀ i, i < 3 → attemptSucceeds (analyze i) = false) :
    execute_single_agent analyze =
      ⟨Except.error ("Agent failed after max attempts: " ++ attemptFailMsg (analyze 2)),
       [retry_delay, retry_delay * retry_multiplier], 3⟩ := by
  have h0 := h 0 (by norm_num)
  have h1 := h 1 (by norm_num)
  have h2 := h 2 (by norm_num)
  have e2 := single_agent_go_fail_last analyze 2 (retry_delay * retry_multiplier * retry_multiplier) h2
  have e1 := single_agent_go_fail_step analyze 1 0 (retry_delay * retry_multiplier) h1
  have e0 := single_agent_go_fail_step analyze 0 1 retry_delay h0
  show single_agent_go analyze 0 max_retries retry_delay = _
  rw [show max_retries = 1 + 2 from rfl, e0, e1, e2]

/-- Any `ok` result of the retry loop passed the structural validation. -/
lemma single_agent_go_ok_valid (analyze : Nat → Attempt) :
    ∀ (r attempt : Nat) (delay : ℚ) (v : PyVal),
      (single_agent_go analyze attempt r delay).result = Except.ok v →
      validResult v = true := by
  intro r
  induction r with
  | zero => intro attempt delay v hv; simp [single_agent_go] at hv
  | succ r ih =>
    intro attempt delay v hv
    cases hc : analyze attempt with
    | ret w =>
      rw [single_agent_go, hc] at hv
      by_cases hw : validResult w = true
      · simp [hw] at hv; rwa [← hv]
      · simp [eq_false_of_ne_true hw] at hv
        rcases Nat.eq_zero_or_pos r with hr | hr
        · subst hr; simp at hv
        · obtain ⟨r0, rfl⟩ : ∃ r0, r = r0 + 1 := ⟨r - 1, by omega⟩
          simp at hv
          exact ih (attempt + 1) (delay * retry_multiplier) v hv
    | exn m =>
      rw [single_agent_go, hc] at hv
      rcases Nat.eq_zero_or_pos r with hr | hr
      · subst hr; simp at hv
      · obtain ⟨r0, rfl⟩ : ∃ r0, r = r0 + 1 := ⟨r - 1, by omega⟩
        simp at hv
        exact ih (attempt + 1) (delay * retry_multiplier) v hv

/-- The loop body always invokes the analyzer at least once. -/
lemma single_agent_go_calls_pos (analyze : Nat → Attempt) (attempt r : Nat) (delay : ℚ) :
    1 ≤ (single_agent_go analyze attempt (r + 1) delay).calls := by
  cases hc : analyze attempt with
  | ret w =>
    by_cases hw : validResult w = true
    · simp [single_agent_go, hc, hw]
    · rcases Nat.eq_zero_or_pos r with hr | hr
      · subst hr; simp [single_agent_go, hc, eq_false_of_ne_true hw]
      · obtain ⟨r0, rfl⟩ : ∃ r0, r = r0 + 1 := ⟨r - 1, by omega⟩
        simp [single_agent_go, hc, eq_false_of_ne_true hw]
  | exn m =>
    rcases Nat.eq_zero_or_pos r with hr | hr
    · subst hr; simp [single_agent_go, hc]
    · obtain ⟨r0, rfl⟩ : ∃ r0, r = r0 + 1 := ⟨r - 1, by omega⟩
      simp [single_agent_go, hc]

/-- The entry an exhausted agent contributes to the result map is the
except-branch error dict. -/
lemma agent_entry_all_fail (analyze : Nat → Attempt)
    (h : ∀ i, i < 3 → attemptSucceeds (analyze i) = false) :
    agent_entry analyze = agent_failure_entry := by
  unfold agent_entry
  rw [execute_single_agent_all_fail analyze h]

/-- The entry a first-attempt-successful agent contributes is its payload. -/
lemma agent_entry_first_ok (analyze : Nat → Attempt)
    (h : attemptSucceeds (analyze 0) = true) :
    agent_entry analyze = attemptValue (analyze 0) := by
  unfold agent_entry execute_single_agent
  rw [show max_retries = 2 + 1 from rfl, single_agent_go_first_ok analyze 0 2 retry_delay h]

/-- Every entry of the result map is a Python dict. -/
lemma agent_entry_isDict (analyze : Nat → Attempt) :
    (agent_entry analyze).isDict = true := by
  unfold agent_entry
  cases hr : (execute_single_agent analyze).result with
  | ok v =>
    have := single_agent_go_ok_valid analyze max_retries 0 retry_delay v hr
    exact (validResult_spec this).1
  | error e => rfl

/-- The entry of a first-attempt-successful agent has no "error" key. -/
lemma agent_entry_no_error (analyze : Nat → Attempt)
    (h : attemptSucceeds (analyze 0) = true) :
    (agent_entry analyze).hasErrorKey = false := by
  rw [agent_entry_first_ok analyze h]
  cases hc : analyze 0 with
  | ret v =>
    rw [hc] at h
    simp only [attemptSucceeds] at h
    simpa [attemptValue] using (validResult_spec h).2
  | exn m => rw [hc] at h; simp [attemptSucceeds] at h

/-- A failing LLM attempt with iterations left just moves to the next
attempt (the fixed `self.retry_delay` sleep has no observable effect on the
returned value). -/
lemma execute_llm_fail_step (attempts : Nat → LlmAttempt) (attempt r : Nat)
    (h : llmAttemptFails (attempts attempt) = true) :
    execute_llm_analysis attempts attempt (r + 2) =
      execute_llm_analysis attempts (attempt + 1) (r + 1) := by
  cases hc : attempts attempt with
  | parsed v => rw [hc] at h; simp [llmAttemptFails] at h
  | parseErr => simp [execute_llm_analysis, hc]
  | callErr => simp [execute_llm_analysis, hc]

/-- The object returned by `_execute_llm_analysis` after its final failing
attempt: one of the two error dicts, neither of which carries any of the six
report fields later requested by `_format_for_agent3`, and both of which
carry "error". -/
lemma execute_llm_fail_last (attempts : Nat → LlmAttempt) (attempt : Nat)
    (h : llmAttemptFails (attempts attempt) = true) :
    ∃ fs : List (String × JSON),
      execute_llm_analysis attempts attempt 1 = JSON.obj fs ∧
      fs.lookup "quality_assessment" = none ∧
      fs.lookup "architecture_analysis" = none ∧
      fs.lookup "business_assessment" = none ∧
      fs.lookup "strategic_recommendations" = none ∧
      fs.lookup "analysis_metadata" = none ∧
      fs.lookup "executive_summary" = none ∧
      (fs.lookup "error").isSome = true := by
  cases hc : attempts attempt with
  | parsed v => rw [hc] at h; simp [llmAttemptFails] at h
  | parseErr =>
    refine ⟨[("error", JSON.str "Failed to parse LLM response"),
      ("raw_response", JSON.str "raw"),
      ("agent", JSON.str "aggregation_agent"),
      ("attempt", JSON.num (attempt + 1))], ?_, rfl, rfl, rfl, rfl, rfl, rfl, rfl⟩
    simp [execute_llm_analysis, hc]
  | callErr =>
    refine ⟨[("error", JSON.str "LLM analysis failed"),
      ("error_message", JSON.str "llm error"),
      ("agent", JSON.str "aggregation_agent"),
      ("attempt", JSON.num (attempt + 1))], ?_, rfl, rfl, rfl, rfl, rfl, rfl, rfl⟩
    simp [execute_llm_analysis, hc]

/-! ## Helper lemmas: the parallel collector -/

/-- When every unit settles within the timeout, the collection loop returns
the full map, one entry per unit in settlement order. -/
lemma collect_results_ok (l : List AgentRun) (timeout : Nat)
    (h : ∀ a ∈ l, a.time ≤ timeout) :
    collect_results l timeout =
      Except.ok (l.map (fun a => (a.name, agent_entry a.analyze))) := by
  induction l with
  | nil => rfl
  | cons a rest ih =>
    have ha : ¬ timeout < a.time := Nat.not_lt.mpr (h a (List.mem_cons_self a rest))
    have hrest : ∀ b ∈ rest, b.time ≤ timeout := fun b hb => h b (List.mem_cons_of_mem a hb)
    simp [collect_results, ha, ih hrest]

/-- When any unit settles after the timeout, the collection loop aborts
with the propagated `TimeoutError`, regardless of the unit's position in
settlement order (the error of a later iteration propagates unchanged). -/
lemma collect_results_error (l : List AgentRun) (timeout : Nat)
    (h : ∃ a ∈ l, timeout < a.time) :
    collect_results l timeout = Except.error "TimeoutError" := by
  induction l with
  | nil => simp at h
  | cons a rest ih =>
    by_cases ha : timeout < a.time
    · simp [collect_results, ha]
    · have hrest : ∃ b ∈ rest, timeout < b.time := by
        obtain ⟨b, hb, hbt⟩ := h
        rcases List.mem_cons.mp hb with hba | hb
        · rw [hba] at hbt; exact absurd hbt ha
        · exact ⟨b, hb, hbt⟩
      rw [collect_results, if_neg ha, ih hrest]

/-- Whatever map the collection loop returns, every entry of it is the entry
of one of the submitted units. -/
lemma collect_results_entries (l : List AgentRun) (timeout : Nat)
    (m : List (String × PyVal)) (h : collect_results l timeout = Except.ok m) :
    ∀ p ∈ m, ∃ a ∈ l, p = (a.name, agent_entry a.analyze) := by
  induction l generalizing m with
  | nil =>
    simp [collect_results] at h
    subst h; intro p hp; simp at hp
  | cons a rest ih =>
    by_cases ha : timeout < a.time
    · simp [collect_results, ha] at h
    · rw [collect_results, if_neg ha] at h
      cases hr : collect_results rest timeout with
      | ok m0 =>
        rw [hr] at h
        simp at h
        subst h
        intro p hp
        rcases List.mem_cons.mp hp with hp | hp
        · exact ⟨a, List.mem_cons_self a rest, hp⟩
        · obtain ⟨b, hb, hpb⟩ := ih m0 hr p hp
          exact ⟨b, List.mem_cons_of_mem a hb, hpb⟩
      | error e => rw [hr] at h; simp at h

/-- The success/failure counters of `analyze_repository` partition the map:
they always sum to the number of entries. -/
lemma successful_add_failed (m : List (String × PyVal)) :
    successful_agents m + failed_agents m = m.length := by
  induction m with
  | nil => rfl
  | cons p rest ih =>
    unfold successful_agents failed_agents at ih ⊢
    cases hp : p.2.hasErrorKey <;> simp [List.filter_cons, hp] <;> omega

/-- Counting the failed entries of the collected map counts the exhausted
units. -/
lemma failed_agents_map (l : List AgentRun) :
    failed_agents (l.map (fun a => (a.name, agent_entry a.analyze))) =
      l.countP (fun a => (agent_entry a.analyze).hasErrorKey) := by
  unfold failed_agents
  rw [← List.countP_eq_length_filter, List.countP_map]
  rfl

/-! ## Helper lemmas: the chunker -/

/-- Each loop iteration appends exactly the processed file to the state. -/
lemma chunk_step_files (k target : Nat) (s : ChunkBuildState) (f : FileInfo) :
    state_files (chunk_step k target s f) = state_files s ++ [f] := by
  unfold chunk_step state_files
  by_cases hc : target < s.curChars + f.content.length ∧ s.curFiles ≠ [] ∧
      s.chunks.length < k - 1
  · simp [hc, List.flatten_append, List.append_assoc]
  · simp [hc, List.append_assoc]

/-- The chunking loop only ever appends the processed files, in order. -/
lemma foldl_chunk_files (k target : Nat) :
    ∀ (l : List FileInfo) (s : ChunkBuildState),
      state_files (l.foldl (chunk_step k target) s) = state_files s ++ l := by
  intro l
  induction l with
  | nil => intro s; simp
  | cons f l ih =>
    intro s
    simp only [List.foldl_cons]
    rw [ih (chunk_step k target s f), chunk_step_files, List.append_assoc]
    rfl

/-- Finalizing a state yields chunks holding exactly the state's files. -/
lemma finalize_chunks_flatten (s : ChunkBuildState) :
    ((finalize_chunks s).map Chunk.files).flatten = state_files s := by
  unfold finalize_chunks state_files
  by_cases hcur : s.curFiles.isEmpty
  · have hnil : s.curFiles = [] := List.isEmpty_iff.mp hcur
    simp [hcur, hnil]
  · simp [hcur, List.flatten_append]

/-- Finalizing adds at most one chunk. -/
lemma finalize_chunks_length (s : ChunkBuildState) :
    (finalize_chunks s).length ≤ s.chunks.length + 1 := by
  unfold finalize_chunks
  by_cases hcur : s.curFiles.isEmpty
  · simp [hcur]
  · simp [hcur]

/-- Concatenating the produced chunks' file lists gives back exactly the
size-sorted text files. -/
lemma create_multiple_chunks_join (files : List FileInfo) (k : Nat) :
    ((create_multiple_chunks files k).map Chunk.files).flatten =
      sort_files_desc (files.filter (fun f => f.is_text)) := by
  show ((finalize_chunks _).map Chunk.files).flatten = _
  rw [finalize_chunks_flatten, foldl_chunk_files]
  rfl

/-- The loop never finalizes a chunk unless fewer than `k - 1` exist, so the
invariant "at most `k - 1` finalized chunks" is preserved. -/
lemma foldl_chunk_len (k target : Nat) :
    ∀ (l : List FileInfo) (s : ChunkBuildState),
      s.chunks.length ≤ k - 1 →
      ((l.foldl (chunk_step k target) s).chunks).length ≤ k - 1 := by
  intro l
  induction l with
  | nil => intro s hs; simpa using hs
  | cons f l ih =>
    intro s hs
    simp only [List.foldl_cons]
    apply ih
    unfold chunk_step
    by_cases hc : target < s.curChars + f.content.length ∧ s.curFiles ≠ [] ∧
        s.chunks.length < k - 1
    · simp [hc]; omega
    · simpa [hc] using hs

/-! ## Helper lemmas: stable recommendation sorting -/

/-- Inserting a recommendation of key `n` walks only past strictly greater
keys, so the key-`n` elements of the result are the inserted one followed by
those already present, in order. -/
lemma filter_orderedInsert_pos (n : Nat) (a : Recommendation) (ha : recKey a = n) :
    ∀ l : List Recommendation,
      (List.orderedInsert recGE a l).filter (fun x => recKey x == n) =
        a :: l.filter (fun x => recKey x == n)
  | [] => by simp [ha]
  | b :: l => by
    by_cases hb : recGE a b
    · simp [List.orderedInsert, hb, ha]
    · have hbn : (recKey b == n) = false := by
        have : recKey a < recKey b := Nat.lt_of_not_le (fun hle => hb hle)
        simp only [beq_eq_false_iff_ne, ne_eq]
        omega
      simp only [List.orderedInsert, if_neg hb, List.filter_cons, hbn]
      exact filter_orderedInsert_pos n a ha l

/-- Inserting a recommendation of a different key leaves the key-`n`
elements unchanged. -/
lemma filter_orderedInsert_neg (n : Nat) (a : Recommendation) (ha : ¬ recKey a = n) :
    ∀ l : List Recommendation,
      (List.orderedInsert recGE a l).filter (fun x => recKey x == n) =
        l.filter (fun x => recKey x == n)
  | [] => by simp [ha]
  | b :: l => by
    by_cases hb : recGE a b
    · simp [List.orderedInsert, hb, ha]
    · simp only [List.orderedInsert, if_neg hb, List.filter_cons]
      rw [filter_orderedInsert_neg n a ha l]

/-- Stability of the recommendation sort: for every priority key, the
subsequence of that key is exactly the input's subsequence of that key. -/
lemma filter_sort_recommendations (n : Nat) :
    ∀ l : List Recommendation,
      (sort_recommendations l).filter (fun x => recKey x == n) =
        l.filter (fun x => recKey x == n)
  | [] => rfl
  | a :: l => by
    show (List.orderedInsert recGE a (sort_recommendations l)).filter _ = _
    by_cases ha : recKey a = n
    · rw [filter_orderedInsert_pos n a ha, filter_sort_recommendations n l,
        List.filter_cons]
      simp [ha]
    · rw [filter_orderedInsert_neg n a ha, filter_sort_recommendations n l,
        List.filter_cons]
      simp [ha]

/-! ## Helper lemmas: set-based deduplication -/

/-- Membership in the spec's first-seen deduplication. -/
lemma mem_specDedupFirstSeen (s : String) :
    ∀ l : List String, s ∈ specDedupFirstSeen l ↔ s ∈ l
  | [] => Iff.rfl
  | a :: l => by
    by_cases hs : s = a
    · subst hs; simp [specDedupFirstSeen]
    · simp only [specDedupFirstSeen, List.mem_cons, List.mem_filter,
        mem_specDedupFirstSeen s l]
      simp [hs]

/-- The spec's first-seen deduplication has no duplicates. -/
lemma nodup_specDedupFirstSeen : ∀ l : List String, (specDedupFirstSeen l).Nodup
  | [] => List.nodup_nil
  | a :: l => by
    refine List.nodup_cons.mpr ⟨?_, ?_⟩
    · intro hmem
      have := (List.mem_filter.mp hmem).2
      simp at this
    · exact (nodup_specDedupFirstSeen l).filter _

/-- The spec's first-seen deduplication is one admissible iteration order of
a CPython set. -/
lemma isPySetOrder_specDedup : IsPySetOrder specDedupFirstSeen :=
  fun l => ⟨nodup_specDedupFirstSeen l, fun s => mem_specDedupFirstSeen s l⟩

/-- Reversing an admissible set order is again an admissible set order. -/
lemma isPySetOrder_reverse : IsPySetOrder (fun l => (specDedupFirstSeen l).reverse) := by
  intro l
  refine ⟨List.nodup_reverse.mpr (nodup_specDedupFirstSeen l), fun s => ?_⟩
  rw [List.mem_reverse]
  exact mem_specDedupFirstSeen s l

/-- When all three synthesis attempts fail, `_execute_llm_analysis` returns
an error dict carrying none of the six report fields. -/
lemma execute_llm_exhausted (attempts : Nat → LlmAttempt)
    (h : ∀ i, i < 3 → llmAttemptFails (attempts i) = true) :
    ∃ fs : List (String × JSON),
      execute_llm_analysis attempts 0 max_retries = JSON.obj fs ∧
      fs.lookup "quality_assessment" = none ∧
      fs.lookup "architecture_analysis" = none ∧
      fs.lookup "business_assessment" = none ∧
      fs.lookup "strategic_recommendations" = none ∧
      fs.lookup "analysis_metadata" = none ∧
      fs.lookup "executive_summary" = none ∧
      (fs.lookup "error").isSome = true := by
  have h0 := h 0 (by norm_num)
  have h1 := h 1 (by norm_num)
  have h2 := h 2 (by norm_num)
  have e0 := execute_llm_fail_step attempts 0 1 h0
  have e1 := execute_llm_fail_step attempts 1 0 h1
  obtain ⟨fs, hfs, hqa, haa, hba, hsr, ham, hes, herr⟩ := execute_llm_fail_last attempts 2 h2
  refine ⟨fs, ?_, hqa, haa, hba, hsr, ham, hes, herr⟩
  rw [show max_retries = 1 + 2 from rfl, e0,
    show (0 + 1 : Nat) = 1 from rfl, show (1 + 1 : Nat) = 0 + 2 from rfl, e1,
    show (1 + 1 : Nat) = 2 from rfl, show (0 + 1 : Nat) = 1 from rfl, hfs]

/-! ## Claim C2 -/

/-- C2, counterexample: the claim says `_execute_single_agent` never
propagates an exception and returns a Failure value on exhaustion.  For an
analyzer whose every call raises, the run instead ends in a propagated
exception ("Agent ... failed after ... attempts"), refuting the claim at
this concrete input. -/
theorem c2_counterexample :
    (execute_single_agent always_exn).result =
      Except.error ("Agent failed after max attempts: analyzer failure") := by
  rfl

/-- C2, amended: when the analyzer fails on all `max_retries` attempts,
`_execute_single_agent` raises after exactly 3 calls; the parallel
collector catches that exception and stores the error dict
`{"error": ..., "error_message": ..., "agent_name": ...}` as the task's
entry, so the failure is represented in the result map rather than escaping
the orchestrator. -/
theorem c2_amended (analyze : Nat → Attempt)
    (h : ∀ i, i < 3 → attemptSucceeds (analyze i) = false) :
    (execute_single_agent analyze).result =
        Except.error ("Agent failed after max attempts: " ++ attemptFailMsg (analyze 2)) ∧
      (execute_single_agent analyze).calls = max_retries ∧
      agent_entry analyze = agent_failure_entry ∧
      agent_failure_entry.hasErrorKey = true := by
  rw [execute_single_agent_all_fail analyze h]
  exact ⟨rfl, rfl, agent_entry_all_fail analyze h, rfl⟩

/-- C2, witness for the amended theorem at the always-raising analyzer. -/
theorem c2_witness :
    (execute_single_agent always_exn).result =
        Except.error ("Agent failed after max attempts: " ++ attemptFailMsg (always_exn 2)) ∧
      (execute_single_agent always_exn).calls = max_retries ∧
      agent_entry always_exn = agent_failure_entry ∧
      agent_failure_entry.hasErrorKey = true :=
  c2_amended always_exn (by decide)

/-! ## Claim C1 -/

/-- C1, counterexample: the claim says units still outstanding at the
overall timeout are recorded as Timeout failures and the complete map is
returned.  With five units settled and `performance_analysis` still
outstanding at 300 seconds, the collection loop instead raises
`TimeoutError` (the `as_completed` iterator raises outside the `try`), so
the run aborts and no map at all is returned. -/
theorem c1_counterexample :
    execute_specialist_agents_parallel timeout_scenario timeout_seconds =
      Except.error "TimeoutError" := by
  rfl

/-- C1, amended: for every run in which some execution unit is still
outstanding when the overall timeout elapses, the collection loop raises
`TimeoutError` and `_execute_specialist_agents_parallel` aborts without
returning any map (so no Timeout failure entries exist); and for every run
in which all units settle within the timeout, it returns the complete map —
one entry per unit, each unit contributing its own entry under its name, a
unit that completed successfully keeping its real result as its value. -/
theorem c1_amended (agents : List AgentRun) (timeout : Nat) :
    ((∃ a ∈ agents, timeout < a.time) →
      execute_specialist_agents_parallel agents timeout =
        Except.error "TimeoutError") ∧
    ((∀ a ∈ agents, a.time ≤ timeout) →
      ∃ m, execute_specialist_agents_parallel agents timeout = Except.ok m ∧
        m.length = agents.length ∧
        (∀ a ∈ agents, (a.name, agent_entry a.analyze) ∈ m) ∧
        (∀ a ∈ agents, attemptSucceeds (a.analyze 0) = true →
          (a.name, attemptValue (a.analyze 0)) ∈ m)) := by
  constructor
  · intro h
    obtain ⟨a, ha, hat⟩ := h
    exact collect_results_error _ _
      ⟨a, (List.perm_insertionSort _ agents).symm.subset ha, hat⟩
  · intro h
    refine ⟨(sort_by_completion agents).map (fun a => (a.name, agent_entry a.analyze)),
      ?_, ?_, ?_, ?_⟩
    · exact collect_results_ok _ _
        (fun a ha => h a ((List.perm_insertionSort _ agents).subset ha))
    · rw [List.length_map]
      exact (List.perm_insertionSort _ agents).length_eq
    · intro a ha
      exact List.mem_map_of_mem (fun a => (a.name, agent_entry a.analyze))
        ((List.perm_insertionSort (fun a b => a.time ≤ b.time) agents).symm.subset ha)
    · intro a ha hs
      have hmem : (a.name, agent_entry a.analyze) ∈
          (sort_by_completion agents).map (fun a => (a.name, agent_entry a.analyze)) :=
        List.mem_map_of_mem (fun a => (a.name, agent_entry a.analyze))
          ((List.perm_insertionSort (fun a b => a.time ≤ b.time) agents).symm.subset ha)
      rwa [agent_entry_first_ok a.analyze hs] at hmem

/-- C1, witness for the amended theorem, exercising both directions: six
units with one outstanding at the timeout abort with `TimeoutError`, and
six units all settling in time yield the complete map in which every unit's
real result appears under its name. -/
theorem c1_witness :
    ((∃ a ∈ timeout_scenario, timeout_seconds < a.time) ∧
      execute_specialist_agents_parallel timeout_scenario timeout_seconds =
        Except.error "TimeoutError") ∧
    ((∀ a ∈ ontime_scenario, a.time ≤ timeout_seconds) ∧
      ∃ m, execute_specialist_agents_parallel ontime_scenario timeout_seconds =
          Except.ok m ∧
        m.length = ontime_scenario.length ∧
        (∀ a ∈ ontime_scenario, (a.name, agent_entry a.analyze) ∈ m) ∧
        (∀ a ∈ ontime_scenario, attemptSucceeds (a.analyze 0) = true →
          (a.name, attemptValue (a.analyze 0)) ∈ m)) :=
  ⟨⟨by decide, (c1_amended timeout_scenario timeout_seconds).1 (by decide)⟩,
   ⟨by decide, (c1_amended ontime_scenario timeout_seconds).2 (by decide)⟩⟩

/-! ## Claim C3 -/

/-- C3: six tasks, all settling within the timeout, where exactly one
(placed anywhere) fails every attempt and the other five succeed: the run
returns — without raising — a map keyed by task name with exactly 5
no-error entries and 1 error entry; the one task's exhaustion of retries
neither aborts the run nor loses the other results. -/
theorem c3_failure_isolation (pre post : List AgentRun) (bad : AgentRun)
    (hlen : pre.length + post.length = 5)
    (htime : ∀ a ∈ pre ++ bad :: post, a.time ≤ timeout_seconds)
    (hgood : ∀ a ∈ pre ++ post, ∀ i, i < 3 → attemptSucceeds (a.analyze i) = true)
    (hbad : ∀ i, i < 3 → attemptSucceeds (bad.analyze i) = false) :
    ∃ m, execute_specialist_agents_parallel (pre ++ bad :: post) timeout_seconds =
        Except.ok m ∧
      m.length = 6 ∧ successful_agents m = 5 ∧ failed_agents m = 1 := by
  set agents := pre ++ bad :: post with hagents
  have hperm : List.Perm (sort_by_completion agents) agents :=
    List.perm_insertionSort _ agents
  have hok := collect_results_ok (sort_by_completion agents) timeout_seconds
    (fun a ha => htime a (hperm.subset ha))
  have hmlen :
      ((sort_by_completion agents).map (fun a => (a.name, agent_entry a.analyze))).length
        = 6 := by
    rw [List.length_map, hperm.length_eq, hagents]
    simp only [List.length_append, List.length_cons]
    omega
  have hfail :
      failed_agents
        ((sort_by_completion agents).map (fun a => (a.name, agent_entry a.analyze))) = 1 := by
    rw [failed_agents_map, hperm.countP_eq, hagents, List.countP_append, List.countP_cons]
    have hpre : pre.countP (fun a => (agent_entry a.analyze).hasErrorKey) = 0 := by
      rw [List.countP_eq_zero]
      intro a ha
      have h0 := hgood a (List.mem_append_left _ ha) 0 (by norm_num)
      simp [agent_entry_no_error a.analyze h0]
    have hpost : post.countP (fun a => (agent_entry a.analyze).hasErrorKey) = 0 := by
      rw [List.countP_eq_zero]
      intro a ha
      have h0 := hgood a (List.mem_append_right _ ha) 0 (by norm_num)
      simp [agent_entry_no_error a.analyze h0]
    have hb : (agent_entry bad.analyze).hasErrorKey = true := by
      rw [agent_entry_all_fail bad.analyze hbad]; rfl
    rw [hpre, hpost, hb]
    simp
  have hpart := successful_add_failed
    ((sort_by_completion agents).map (fun a => (a.name, agent_entry a.analyze)))
  exact ⟨_, hok, hmlen, by omega, hfail⟩

/-- C3, witness: the concrete isolation scenario with the failing
`architecture_dataflow` unit as task number 3 of 6. -/
theorem c3_witness :
    ∃ m, execute_specialist_agents_parallel
        (isolation_pre ++ isolation_bad :: isolation_post) timeout_seconds =
        Except.ok m ∧
      m.length = 6 ∧ successful_agents m = 5 ∧ failed_agents m = 1 :=
  c3_failure_isolation isolation_pre isolation_post isolation_bad
    (by decide) (by decide) (by decide) (by decide)

/-! ## Claim C10 -/

/-- C10: an attempt counts as a success exactly when the analyzer returned
a dict without a top-level "error" key — any `ok` outcome of the retry loop
passed that validation, a valid first return is accepted at once, and a
returned dict that does carry an "error" field is treated as a structural
failure and retried (a second analyzer call happens); consequently every
entry of any returned result map is a dict, and the metadata counters
satisfy successful + failed = number of entries. -/
theorem c10_success_classification :
    (∀ (analyze : Nat → Attempt) (v : PyVal),
        (execute_single_agent analyze).result = Except.ok v → validResult v = true) ∧
    (∀ analyze : Nat → Attempt,
        attemptSucceeds (analyze 0) = true →
        execute_single_agent analyze = ⟨Except.ok (attemptValue (analyze 0)), [], 1⟩) ∧
    (∀ (analyze : Nat → Attempt) (v : PyVal),
        analyze 0 = Attempt.ret v → validResult v = false →
        2 ≤ (execute_single_agent analyze).calls) ∧
    (∀ (agents : List AgentRun) (timeout : Nat) (m : List (String × PyVal)),
        execute_specialist_agents_parallel agents timeout = Except.ok m →
        (∀ p ∈ m, p.2.isDict = true) ∧
          successful_agents m + failed_agents m = m.length) := by
  refine ⟨?_, ?_, ?_, ?_⟩
  · intro analyze v hv
    exact single_agent_go_ok_valid analyze max_retries 0 retry_delay v hv
  · intro analyze h
    exact single_agent_go_first_ok analyze 0 2 retry_delay h
  · intro analyze v h0 hv
    have hfail : attemptSucceeds (analyze 0) = false := by
      rw [h0]; simp [attemptSucceeds, hv]
    have hpos := single_agent_go_calls_pos analyze 1 1 (retry_delay * retry_multiplier)
    show 2 ≤ (single_agent_go analyze 0 max_retries retry_delay).calls
    rw [show max_retries = 1 + 2 from rfl,
      single_agent_go_fail_step analyze 0 1 retry_delay hfail]
    simp only [Nat.zero_add]
    omega
  · intro agents timeout m h
    constructor
    · intro p hp
      obtain ⟨a, ha, hpa⟩ :=
        collect_results_entries (sort_by_completion agents) timeout m h p hp
      rw [hpa]
      exact agent_entry_isDict a.analyze
    · exact successful_add_failed m

/-- C10, witness: a valid payload accepted at once, an "error"-carrying
payload retried, and a one-entry map with dict entries and matching
counters. -/
theorem c10_witness :
    validResult (PyVal.dict false 7) = true ∧
    execute_single_agent (ret_ok 7) = ⟨Except.ok (PyVal.dict false 7), [], 1⟩ ∧
    2 ≤ (execute_single_agent ret_error_field).calls ∧
    ((∀ p ∈ [("technology_detection", PyVal.dict false 7)], (p.2).isDict = true) ∧
      successful_agents [("technology_detection", PyVal.dict false 7)] +
        failed_agents [("technology_detection", PyVal.dict false 7)] = 1) := by
  refine ⟨by decide, ?_, ?_, ?_⟩
  · exact c10_success_classification.2.1 (ret_ok 7) (by decide)
  · exact c10_success_classification.2.2.1 ret_error_field (PyVal.dict true 9)
      rfl (by decide)
  · exact c10_success_classification.2.2.2 [single_good_agent] 300
      [("technology_detection", PyVal.dict false 7)] (by rfl)

/-! ## Claim C5 -/

/-- C5: for every (text) file set and every target chunk count k ≥ 1, the
chunk list built by `_create_multiple_chunks` partitions the input
exhaustively and disjointly: the concatenation of the chunks' file lists is
a permutation of the input, so every input file occurs in the chunks,
counted with multiplicity, exactly as often as in the input — in exactly one
chunk for distinct inputs, with no duplication across chunks. -/
theorem c5_partition (files : List FileInfo) (k : Nat) (_hk : 1 ≤ k)
    (htext : ∀ f ∈ files, f.is_text = true) :
    (((create_multiple_chunks files k).map Chunk.files).flatten).Perm files ∧
    (∀ f : FileInfo,
      (((create_multiple_chunks files k).map Chunk.files).flatten).count f =
        files.count f) := by
  have hfilter : files.filter (fun f => f.is_text) = files :=
    List.filter_eq_self.mpr (fun a ha => by simpa using htext a ha)
  have hjoin := create_multiple_chunks_join files k
  rw [hfilter] at hjoin
  have hperm : (((create_multiple_chunks files k).map Chunk.files).flatten).Perm files := by
    rw [hjoin]; exact List.perm_insertionSort _ files
  exact ⟨hperm, fun f => hperm.count_eq f⟩

/-- C5, witness at a concrete four-file catalog split into two chunks. -/
theorem c5_witness :
    (1 ≤ 2 ∧ ∀ f ∈ demo_files, f.is_text = true) ∧
    (((create_multiple_chunks demo_files 2).map Chunk.files).flatten).Perm demo_files ∧
    (∀ f : FileInfo,
      (((create_multiple_chunks demo_files 2).map Chunk.files).flatten).count f =
        demo_files.count f) :=
  ⟨⟨by decide, by decide⟩, c5_partition demo_files 2 (by decide) (by decide)⟩

/-! ## Claim C6 -/

/-- C6: for every file set and every target chunk count k ≥ 1, the number
of chunks built by `_create_multiple_chunks` is at most k: the loop only
finalizes a chunk while fewer than k-1 exist, and at most one catch-all
chunk is appended at the end. -/
theorem c6_chunk_count_bound (files : List FileInfo) (k : Nat) (hk : 1 ≤ k) :
    (create_multiple_chunks files k).length ≤ k := by
  show (finalize_chunks ((sort_files_desc (files.filter (fun f => f.is_text))).foldl
    (chunk_step k (((files.filter (fun f => f.is_text)).map (fun f => f.size_chars)).sum / k))
    ⟨[], [], 0⟩)).length ≤ k
  have hfin := finalize_chunks_length ((sort_files_desc (files.filter (fun f => f.is_text))).foldl
    (chunk_step k (((files.filter (fun f => f.is_text)).map (fun f => f.size_chars)).sum / k))
    ⟨[], [], 0⟩)
  have hlen := foldl_chunk_len k
    (((files.filter (fun f => f.is_text)).map (fun f => f.size_chars)).sum / k)
    (sort_files_desc (files.filter (fun f => f.is_text))) ⟨[], [], 0⟩ (by simp)
  omega

/-- C6, witness at a concrete four-file catalog and k = 2. -/
theorem c6_witness : 1 ≤ 2 ∧ (create_multiple_chunks demo_files 2).length ≤ 2 :=
  ⟨by decide, c6_chunk_count_bound demo_files 2 (by decide)⟩

/-! ## Claim C7 -/

/-- C7: an always-failing task invokes the analyzer exactly `max_retries`
(3) times — never a 4th — and the backoff sleeps are exactly
[base·mult⁰, base·mult¹] = [2, 3] time units: 2 before the 2nd attempt and
3 before the 3rd. -/
theorem c7_retry_backoff (analyze : Nat → Attempt)
    (h : ∀ i, i < 3 → attemptSucceeds (analyze i) = false) :
    (execute_single_agent analyze).calls = max_retries ∧
      (execute_single_agent analyze).sleeps =
        [retry_delay * retry_multiplier ^ 0, retry_delay * retry_multiplier ^ 1] ∧
      (execute_single_agent analyze).sleeps = [2, 3] := by
  rw [execute_single_agent_all_fail analyze h]
  refine ⟨rfl, ?_, ?_⟩
  · norm_num [retry_delay, retry_multiplier]
  · norm_num [retry_delay, retry_multiplier]

/-- C7, witness at the always-raising analyzer. -/
theorem c7_witness :
    (execute_single_agent always_exn).calls = max_retries ∧
      (execute_single_agent always_exn).sleeps =
        [retry_delay * retry_multiplier ^ 0, retry_delay * retry_multiplier ^ 1] ∧
      (execute_single_agent always_exn).sleeps = [2, 3] :=
  c7_retry_backoff always_exn (by decide)

/-! ## Claim C4 -/

/-- C4, counterexample: the claim says that when the single synthesis call
exhausts its retries, the aggregation fails fatally and no report is
produced.  With a synthesis LLM whose every call raises,
`synthesize_analysis` instead returns normally, producing a report whose
six sections are the empty defaults — the error never surfaces to the
caller. -/
theorem c4_counterexample :
    synthesize_analysis sample_specialist_outputs all_call_err =
      Except.ok
        [("quality_assessment", JSON.obj []),
         ("architecture_analysis", JSON.obj []),
         ("business_assessment", JSON.obj []),
         ("strategic_recommendations", JSON.arr []),
         ("analysis_metadata", JSON.obj []),
         ("executive_summary", JSON.obj []),
         ("_specialist_outputs",
           JSON.obj [("technology_detection", JSON.obj [("stack", JSON.str "python")])])] := by
  rfl

/-- C4, amended: when the synthesis call exhausts its retries,
`_execute_llm_analysis` returns an error dict instead of raising, and
`synthesize_analysis` formats it into a degenerate report (every section
the empty default, the validated specialist outputs attached) and returns
it normally — no error surfaces and a report is always produced. -/
theorem c4_amended (outputs : List (String × JSON)) (attempts : Nat → LlmAttempt)
    (h : ∀ i, i < 3 → llmAttemptFails (attempts i) = true) :
    synthesize_analysis outputs attempts = Except.ok (fallback_report outputs) := by
  obtain ⟨fs, hfs, hqa, haa, hba, hsr, ham, hes, herr⟩ := execute_llm_exhausted attempts h
  show format_for_agent3 (execute_llm_analysis attempts 0 max_retries)
    (validate_specialist_outputs outputs) = Except.ok (fallback_report outputs)
  rw [hfs]
  simp [format_for_agent3, jsonGetD, hqa, haa, hba, hsr, ham, hes, fallback_report]

/-- C4, witness for the amended theorem at the always-raising synthesis
LLM and a concrete specialist output map. -/
theorem c4_witness :
    synthesize_analysis sample_specialist_outputs all_call_err =
      Except.ok (fallback_report sample_specialist_outputs) :=
  c4_amended sample_specialist_outputs all_call_err (by decide)

/-! ## Claim C8 -/

/-- C8: the recommendation sort orders by priority rank HIGH > MEDIUM > LOW
and is stable — it permutes the input into descending-rank order while, for
every rank, keeping that rank's recommendations in their original relative
order; on the spec's example [LOW, HIGH, MEDIUM, HIGH] the output is
[HIGH₁, HIGH₃, MEDIUM, LOW] with the two HIGH items in input order. -/
theorem c8_recommendation_ordering :
    (∀ l : List Recommendation,
        List.Perm (sort_recommendations l) l ∧
        List.Sorted recGE (sort_recommendations l) ∧
        ∀ n : Nat, (sort_recommendations l).filter (fun x => recKey x == n) =
          l.filter (fun x => recKey x == n)) ∧
    strategic_recommendations recExample = [recH1, recH3, recM2, recL0] := by
  refine ⟨fun l => ⟨List.perm_insertionSort recGE l,
    List.sorted_insertionSort recGE l, fun n => filter_sort_recommendations n l⟩, ?_⟩
  decide

/-! ## Claim C9 -/

/-- C9, counterexample: the claim says the deduplicated lists preserve
first-seen input order.  The code computes `list(set(...))[:5]`, whose
order is the set's hash-dependent iteration order; under the admissible
iteration order that enumerates the distinct elements in reverse, the
output differs from the first-seen-order deduplication on a concrete
two-strength input, so the code cannot guarantee the claimed order. -/
theorem c9_counterexample :
    IsPySetOrder (fun l => (specDedupFirstSeen l).reverse) ∧
    extract_strengths (fun l => (specDedupFirstSeen l).reverse) demo_chunk_results ≠
      (specDedupFirstSeen (strengths_list demo_chunk_results)).take 5 := by
  refine ⟨isPySetOrder_reverse, ?_⟩
  decide

/-- C9, amended: the qualitative lists are deduplicated and capped at 5 —
the output has no duplicates, at most 5 items, and only items from the
built list — but in the set's unspecified iteration order, not necessarily
first-seen input order, and which items survive the cap is likewise
order-dependent. -/
theorem c9_amended (set_order : List String → List String)
    (h : IsPySetOrder set_order)
    (chunk_results : List ChunkResult) (findings : List Finding) :
    (extract_strengths set_order chunk_results).Nodup ∧
    (extract_strengths set_order chunk_results).length ≤ 5 ∧
    (∀ s ∈ extract_strengths set_order chunk_results,
      s ∈ strengths_list chunk_results) ∧
    (extract_concerns set_order findings).Nodup ∧
    (extract_concerns set_order findings).length ≤ 5 ∧
    (∀ s ∈ extract_concerns set_order findings, s ∈ concerns_list findings) := by
  obtain ⟨hnd1, hmem1⟩ := h (strengths_list chunk_results)
  obtain ⟨hnd2, hmem2⟩ := h (concerns_list findings)
  refine ⟨List.Nodup.sublist (List.take_sublist _ _) hnd1, ?_,
    fun s hs => (hmem1 s).mp (List.mem_of_mem_take hs),
    List.Nodup.sublist (List.take_sublist _ _) hnd2, ?_,
    fun s hs => (hmem2 s).mp (List.mem_of_mem_take hs)⟩
  · unfold extract_strengths
    rw [List.length_take]
    exact Nat.min_le_left _ _
  · unfold extract_concerns
    rw [List.length_take]
    exact Nat.min_le_left _ _

/-- C9, witness for the amended theorem at a concrete admissible set order
and concrete inputs. -/
theorem c9_witness :
    IsPySetOrder specDedupFirstSeen ∧
    ((extract_strengths specDedupFirstSeen demo_chunk_results).Nodup ∧
     (extract_strengths specDedupFirstSeen demo_chunk_results).length ≤ 5 ∧
     (∀ s ∈ extract_strengths specDedupFirstSeen demo_chunk_results,
       s ∈ strengths_list demo_chunk_results) ∧
     (extract_concerns specDedupFirstSeen demo_findings).Nodup ∧
     (extract_concerns specDedupFirstSeen demo_findings).length ≤ 5 ∧
     (∀ s ∈ extract_concerns specDedupFirstSeen demo_findings,
       s ∈ concerns_list demo_findings)) :=
  ⟨isPySetOrder_specDedup,
   c9_amended specDedupFirstSeen isPySetOrder_specDedup demo_chunk_results demo_findings⟩

end Optqo
